import Mathlib

/-!
Verification of the PhishGuard AI analysis core (Python backend) against its
natural-language specification, by shallow embedding in Lean 4.

Modelling conventions, used throughout:
* Python floats are modelled as exact rationals (`ℚ`); Python ints as `ℤ`
  (or `ℕ` where the source value is a count).
* Python `int(x)` (truncation toward zero) is `pyInt`; Python `round(x, n)`
  (round half to even) is `pyRound`.
* Python dictionaries with a fixed key set are Lean structures; a key that
  may hold `None` is an `Option`.
* `datetime.now()` readings are explicit parameters (`now`), so stateful
  wall-clock reads become pure functions of the clock value.
* Python's stable `list.sort` is `List.mergeSort` (stable merge sort).
* All definitions are translated from the repository sources
  (`backend/utils/cache.py`, `backend/threatintel.py`,
  `backend/features/url_features.py`, `backend/features/heuristic_scorer.py`,
  `backend/features/lookalike_detector.py`,
  `backend/scoring/composite_scorer.py`); definitions that instead follow the
  specification's words for comparison are marked as such in their doc
  comments.
-/

/-- Python `int(x)` on a float/rational: truncation toward zero. -/
def pyInt (q : ℚ) : ℤ := if 0 ≤ q then ⌊q⌋ else ⌈q⌉

/-- Python `round(x)` at a tie-free or general point: round half to even
(banker's rounding), as CPython's `round` does on exact values. -/
def pyRound0 (q : ℚ) : ℤ :=
  let f : ℤ := ⌊q⌋
  let r : ℚ := q - f
  if r < 1/2 then f
  else if 1/2 < r then f + 1
  else if Even f then f else f + 1

/-- Python `round(x, n)` for `n ≥ 0` digits, on exact rationals. -/
def pyRound (n : ℕ) (q : ℚ) : ℚ := (pyRound0 (q * 10 ^ n) : ℚ) / 10 ^ n

/-- The ASCII apostrophe, used when assembling message strings. -/
def asciiQuote : String := String.mk [Char.ofNat 39]

namespace Config

/-! Settings defaults from `backend/config.py` (class `Settings`). -/

def CACHE_TTL_POSITIVE : ℤ := 604800
def CACHE_TTL_NEGATIVE : ℤ := 86400
def WEIGHT_ML : ℚ := 0.40
def WEIGHT_HEURISTIC : ℚ := 0.25
def WEIGHT_THREAT_INTEL : ℚ := 0.30
def WEIGHT_LOOKALIKE : ℚ := 0.05
def THRESHOLD_SAFE : ℤ := 30
def THRESHOLD_SUSPICIOUS : ℤ := 60
def THRESHOLD_DANGEROUS : ℤ := 85

end Config

namespace ThreatCache

/-! Embedding of `ThreatCache.set_url_analysis` (`backend/utils/cache.py`,
lines 182-208): the part of the method that chooses the TTL from the stored
verdict. The verdict record supplies `threat_score` and `risk_level`
(`result.get('threat_score', 0)`, `result.get('risk_level', 'safe')`);
both keys are always present in a composite result. -/

/-- The fields of the cached verdict that the TTL policy reads. -/
structure Verdict where
  threat_score : ℤ
  risk_level : String
  deriving DecidableEq

/-- TTL in seconds chosen by `set_url_analysis`; `none` means no expiry
(the `ttl = None` branch for critical threats). -/
def setUrlAnalysisTTL (result : Verdict) : Option ℤ :=
  if result.risk_level = "critical" ∨ result.threat_score ≥ 90 then
    none
  else if result.threat_score ≥ 60 then
    some Config.CACHE_TTL_POSITIVE
  else
    some Config.CACHE_TTL_NEGATIVE

end ThreatCache

namespace RateLimiter

/-! Embedding of `RateLimiter` (`backend/threatintel.py`, lines 19-54).
State: the deque of recorded call timestamps, oldest first; timestamps are
`time.time()` readings, modelled as rationals. The claim's protocol — every
call admitted by `can_call()` is recorded with `add_call()` — is modelled by
`run`, which at each clock reading performs `can_call()` and, when it
returns true, `add_call()` at the same reading. -/

/-- The eviction loop of `can_call`: pop from the left while the head
timestamp is older than `now - time_window`. On a queue kept in append
order this is `dropWhile`. -/
def evict (timeWindow : ℚ) (calls : List ℚ) (now : ℚ) : List ℚ :=
  calls.dropWhile (fun t => decide (t < now - timeWindow))

/-- `can_call`: evict, then compare the remaining length with `max_calls`.
Returns the verdict together with the mutated queue. -/
def canCall (maxCalls : ℕ) (timeWindow : ℚ) (calls : List ℚ) (now : ℚ) :
    Bool × List ℚ :=
  let remaining := evict timeWindow calls now
  (decide (remaining.length < maxCalls), remaining)

/-- `add_call`: append the current reading. -/
def addCall (calls : List ℚ) (now : ℚ) : List ℚ := calls ++ [now]

/-- Run the admitted-calls-are-recorded protocol over a list of clock
readings, returning each reading paired with its `can_call()` verdict. -/
def run (maxCalls : ℕ) (timeWindow : ℚ) :
    List ℚ → List ℚ → List (ℚ × Bool)
  | _, [] => []
  | calls, t :: ts =>
    let step := canCall maxCalls timeWindow calls t
    if step.1 then
      (t, true) :: run maxCalls timeWindow (addCall step.2 t) ts
    else
      (t, false) :: run maxCalls timeWindow step.2 ts

/-- Successful `can_call()` results whose reading falls in the half-open
window `(a, a + W]`. -/
def inWindow (a timeWindow : ℚ) (p : ℚ × Bool) : Bool :=
  p.2 && decide (a < p.1 ∧ p.1 ≤ a + timeWindow)

end RateLimiter

namespace DomainAge

/-! Embedding of `URLFeatureExtractor._extract_domain_age`
(`backend/features/url_features.py`, lines 192-221). The WHOIS response's
`creation_date` field may be absent/None, a single datetime, or a list of
datetimes; datetimes are modelled as integer POSIX seconds. `now` is the
`datetime.now()` reading. `(now - creation).days` is floor division of the
exact difference by 86400 seconds, as Python's `timedelta.days`. -/

/-- The `creation_date` attribute of the parsed WHOIS record. An empty
Python list is falsy, so `several []` takes the sentinel branch. -/
inductive CreationDate where
  | missing : CreationDate
  | single (d : ℤ) : CreationDate
  | several (ds : List ℤ) : CreationDate
  deriving DecidableEq

/-- The two features this extractor produces. -/
structure AgeFeatures where
  domain_age_days : ℤ
  domain_registered_recently : ℤ
  deriving DecidableEq

/-- Sentinel values used when WHOIS data is unavailable. -/
def defaults : AgeFeatures := { domain_age_days := -1, domain_registered_recently := 0 }

/-- Age features computed from one creation date. -/
def fromDate (now d : ℤ) : AgeFeatures :=
  let ageDays := Int.fdiv (now - d) 86400
  { domain_age_days := ageDays
    domain_registered_recently := if ageDays < 180 then 1 else 0 }

/-- `_extract_domain_age` on a successful WHOIS lookup: when the creation
date is a list, the source takes `creation_date[0]` (the first element). -/
def extract (now : ℤ) (cd : CreationDate) : AgeFeatures :=
  match cd with
  | .missing => defaults
  | .single d => fromDate now d
  | .several [] => defaults
  | .several (d :: _) => fromDate now d

/-- Modelled from the spec: "parse the earliest creation date when multiple
are returned" — the same extractor but taking the minimum of the list.
Defined for comparison with `extract`, which is the source's behaviour. -/
def extractSpecEarliest (now : ℤ) (cd : CreationDate) : AgeFeatures :=
  match cd with
  | .missing => defaults
  | .single d => fromDate now d
  | .several [] => defaults
  | .several (d :: ds) => fromDate now (ds.foldl min d)

end DomainAge

namespace Heuristic

/-! Embedding of `HeuristicScorer` (`backend/features/heuristic_scorer.py`).
The feature dictionary's canonical key set is fixed (see
`url_features.py`), so it is a structure; `f.get(key, default)` is a plain
field read. Ratio and entropy features are floats (here `ℚ`), the rest are
ints. -/

/-- The features read by the rule table. -/
structure Features where
  url_length : ℤ
  domain_length : ℤ
  subdomain_count : ℤ
  path_depth : ℤ
  query_param_count : ℤ
  digit_ratio : ℚ
  special_char_ratio : ℚ
  hyphen_count : ℤ
  url_entropy : ℚ
  domain_entropy : ℚ
  has_ip_address : ℤ
  has_suspicious_tld : ℤ
  suspicious_keyword_count : ℤ
  at_symbol : ℤ
  has_double_slash_redirecting : ℤ
  prefix_suffix_in_domain : ℤ
  uses_non_standard_port : ℤ
  is_https : ℤ
  has_valid_ssl : ℤ
  ssl_certificate_age_days : ℤ
  domain_age_days : ℤ
  domain_registered_recently : ℤ

/-- One scoring rule: name, predicate over the features, weight, severity
tag and explanation (a function of the features, because one rule's
explanation is an f-string over a feature value). -/
structure Rule where
  name : String
  condition : Features → Bool
  score : ℤ
  severity : String
  explanation : Features → String

/-- The rule table of `_initialize_rules`, in source order. -/
def rules : List Rule := [
  { name := "Extremely long URL"
    condition := fun f => decide (f.url_length > 75)
    score := 15
    severity := "medium"
    explanation := fun _ => "URL length exceeds 75 characters (common in phishing)" },
  { name := "Very long domain"
    condition := fun f => decide (f.domain_length > 30)
    score := 10
    severity := "low"
    explanation := fun _ => "Domain name is unusually long" },
  { name := "Multiple subdomains"
    condition := fun f => decide (f.subdomain_count ≥ 3)
    score := 20
    severity := "high"
    explanation := fun _ => "Contains 3+ subdomains (obfuscation technique)" },
  { name := "Deep path structure"
    condition := fun f => decide (f.path_depth > 5)
    score := 12
    severity := "medium"
    explanation := fun _ => "Path depth exceeds 5 levels (suspicious structure)" },
  { name := "Many query parameters"
    condition := fun f => decide (f.query_param_count > 10)
    score := 8
    severity := "low"
    explanation := fun _ => "Contains excessive query parameters" },
  { name := "High digit ratio"
    condition := fun f => decide (f.digit_ratio > 0.2)
    score := 15
    severity := "medium"
    explanation := fun _ => "Unusually high number of digits in URL" },
  { name := "High special character ratio"
    condition := fun f => decide (f.special_char_ratio > 0.3)
    score := 12
    severity := "medium"
    explanation := fun _ => "Excessive special characters detected" },
  { name := "Multiple hyphens in domain"
    condition := fun f => decide (f.hyphen_count > 3)
    score := 15
    severity := "medium"
    explanation := fun _ => "Domain contains multiple hyphens (typosquatting indicator)" },
  { name := "High URL entropy"
    condition := fun f => decide (f.url_entropy > 4.5)
    score := 18
    severity := "high"
    explanation := fun _ => "High entropy suggests randomly generated or obfuscated URL" },
  { name := "High domain entropy"
    condition := fun f => decide (f.domain_entropy > 4.0)
    score := 15
    severity := "medium"
    explanation := fun _ => "Domain has high entropy (possibly DGA-generated)" },
  { name := "IP address instead of domain"
    condition := fun f => decide (f.has_ip_address = 1)
    score := 30
    severity := "critical"
    explanation := fun _ => "Uses IP address instead of domain name" },
  { name := "Suspicious TLD"
    condition := fun f => decide (f.has_suspicious_tld = 1)
    score := 20
    severity := "high"
    explanation := fun _ => "Uses commonly abused TLD (.tk, .ml, .xyz, etc.)" },
  { name := "Multiple suspicious keywords"
    condition := fun f => decide (f.suspicious_keyword_count ≥ 2)
    score := 25
    severity := "high"
    explanation := fun f =>
      "Contains " ++ toString f.suspicious_keyword_count ++ " phishing-related keywords" },
  { name := "At symbol in URL"
    condition := fun f => decide (f.at_symbol = 1)
    score := 20
    severity := "high"
    explanation := fun _ => "@ symbol used for URL manipulation" },
  { name := "Double slash redirecting"
    condition := fun f => decide (f.has_double_slash_redirecting = 1)
    score := 18
    severity := "medium"
    explanation := fun _ => "Multiple // detected (redirect obfuscation)" },
  { name := "Prefix/suffix in domain"
    condition := fun f => decide (f.prefix_suffix_in_domain = 1)
    score := 15
    severity := "medium"
    explanation := fun _ => "Domain contains hyphens (brand imitation technique)" },
  { name := "Non-standard port"
    condition := fun f => decide (f.uses_non_standard_port = 1)
    score := 12
    severity := "medium"
    explanation := fun _ => "Uses non-standard port number" },
  { name := "No HTTPS"
    condition := fun f => decide (f.is_https = 0)
    score := 10
    severity := "low"
    explanation := fun _ => "Not using secure HTTPS protocol" },
  { name := "Invalid or missing SSL"
    condition := fun f => decide (f.has_valid_ssl = 0 ∧ f.is_https = 1)
    score := 25
    severity := "high"
    explanation := fun _ => "HTTPS but invalid/missing SSL certificate" },
  { name := "Very new SSL certificate"
    condition := fun f => decide (0 ≤ f.ssl_certificate_age_days ∧ f.ssl_certificate_age_days < 30)
    score := 15
    severity := "medium"
    explanation := fun _ => "SSL certificate issued less than 30 days ago" },
  { name := "Recently registered domain"
    condition := fun f => decide (f.domain_registered_recently = 1)
    score := 20
    severity := "high"
    explanation := fun _ => "Domain registered less than 6 months ago" },
  { name := "Very new domain"
    condition := fun f => decide (0 ≤ f.domain_age_days ∧ f.domain_age_days < 30)
    score := 30
    severity := "critical"
    explanation := fun _ => "Domain registered less than 30 days ago" }]

/-- A matched-rule record as appended by `calculate_score` (explanation
already expanded against the features). -/
structure MatchedRule where
  name : String
  score : ℤ
  severity : String
  explanation : String
  deriving DecidableEq

/-- The record appended for a rule that fired. -/
def toMatched (f : Features) (r : Rule) : MatchedRule :=
  { name := r.name, score := r.score, severity := r.severity
    explanation := r.explanation f }

/-- The evaluation loop of `calculate_score`: accumulate matched records and
the running total in rule-table order. (Rule predicates here are total, so
the per-rule `try/except` skip path never fires.) -/
def evalRules (f : Features) (rs : List Rule) :
    List MatchedRule × ℤ :=
  rs.foldl
    (fun acc r =>
      if r.condition f then (acc.1 ++ [toMatched f r], acc.2 + r.score) else acc)
    ([], 0)

/-- The result dictionary of `HeuristicScorer.calculate_score`. -/
structure HeuristicResult where
  score : ℤ
  matched_rules : List MatchedRule
  rule_count : ℕ

/-- `HeuristicScorer.calculate_score` (lines 191-235): evaluate every rule,
clamp the total at 100, and stably sort the matched records by score
descending (Python's stable `list.sort` with `reverse=True`). -/
def calculateScore (f : Features) : HeuristicResult :=
  let acc := evalRules f rules
  let normalizedScore := min acc.2 100
  let sorted := acc.1.mergeSort (fun a b => decide (b.score ≤ a.score))
  { score := normalizedScore, matched_rules := sorted, rule_count := sorted.length }

end Heuristic

/-- Python's substring test `needle in hay` over character lists: some
contiguous run of `hay` equals `needle`. -/
def containsSub (hay needle : List Char) : Bool :=
  match hay with
  | [] => needle.isEmpty
  | _ :: rest => needle.isPrefixOf hay || containsSub rest needle

/-- Python's `str.title()` restricted to ASCII case mapping: the first
letter of each alphabetic run is uppercased, the rest lowercased. -/
def pyTitle (s : String) : String :=
  String.mk
    ((s.data.foldl
        (fun (acc : List Char × Bool) c =>
          if c.isAlpha then
            ((if acc.2 then c.toLower else c.toUpper) :: acc.1, true)
          else (c :: acc.1, false))
        ([], false)).1.reverse)

namespace Composite

/-! Embedding of `CompositeScorer` (`backend/scoring/composite_scorer.py`).
The scorer's weights and thresholds are the configuration defaults of
`backend/config.py`, bound once at construction. The detail dictionaries
passed by the pipeline are structures holding exactly the keys
`calculate_score` reads; `datetime.now().isoformat()` is modelled by the
explicit clock-reading parameter `now`. -/

/-- Keys read from `ml_details`. -/
structure MLDetails where
  confidence : ℚ
  model_used : String
  inference_time_ms : ℚ
  deriving DecidableEq

/-- Keys read from `heuristic_details`. -/
structure HeuristicDetails where
  matched_rules : List Heuristic.MatchedRule
  deriving DecidableEq

/-- Keys read from `threat_intel_details`. -/
structure ThreatIntelDetails where
  hits : ℤ
  reasons : List String
  deriving DecidableEq

/-- Keys read from `lookalike_details`. -/
structure LookalikeDetails where
  is_lookalike : Bool
  homoglyph_detected : Bool
  matched_brand : Option String
  homoglyph_details : Option String
  deriving DecidableEq

/-- Keys read from `brand_impersonation_details` (the whole argument may be
`None`). -/
structure BrandImpersonationDetails where
  is_impersonating : Bool
  suspected_brand : Option String
  impersonation_score : ℤ
  deriving DecidableEq

/-- One entry of the ranked reasons list. -/
structure Reason where
  factor : String
  severity : String
  weight : ℤ
  source : String
  deriving DecidableEq

/-- The `analysis` sub-dictionary of the composite result. -/
structure Analysis where
  ml_prediction : ℚ
  ml_contribution : ℚ
  heuristic_score : ℤ
  heuristic_contribution : ℚ
  threat_intel_score : ℤ
  threat_intel_contribution : ℚ
  threat_intel_hits : ℤ
  lookalike_detected : Bool
  lookalike_score : ℤ
  lookalike_contribution : ℚ
  lookalike_brand : Option String
  brand_impersonation : Bool
  impersonated_brand : Option String
  reasons : List Reason
  model_used : String
  inference_time_ms : ℚ
  deriving DecidableEq

/-- The composite result record. -/
structure CompositeResult where
  threat_score : ℤ
  risk_level : String
  is_phishing : Bool
  confidence : ℚ
  recommendation : String
  analysis : Analysis
  timestamp : String
  deriving DecidableEq

/-- The weights used for a request: the defaults, or the redistributed set
when a high-confidence lookalike was detected (lines 58-70). Order:
(ml, heuristic, threat_intel, lookalike). -/
def effectiveWeights (lookalikeDetails : LookalikeDetails) (lookalikeScore : ℤ) :
    ℚ × ℚ × ℚ × ℚ :=
  if lookalikeDetails.is_lookalike ∧ lookalikeScore ≥ 90 then
    (0.20, 0.25, 0.20, 0.35)
  else
    (Config.WEIGHT_ML, Config.WEIGHT_HEURISTIC, Config.WEIGHT_THREAT_INTEL,
      Config.WEIGHT_LOOKALIKE)

/-- The weighted sum of lines 73-78 (the ML score already normalised to
0-100 by `ml_score * 100`). -/
def weightedSum (mlScore : ℚ) (heuristicScore threatIntelScore lookalikeScore : ℤ)
    (lookalikeDetails : LookalikeDetails) : ℚ :=
  let w := effectiveWeights lookalikeDetails lookalikeScore
  (mlScore * 100) * w.1 + (heuristicScore : ℚ) * w.2.1 +
    (threatIntelScore : ℚ) * w.2.2.1 + (lookalikeScore : ℚ) * w.2.2.2

/-- The composite score before any override: line 81,
`max(0, min(100, int(composite_score)))`. -/
def preOverrideComposite (mlScore : ℚ)
    (heuristicScore threatIntelScore lookalikeScore : ℤ)
    (lookalikeDetails : LookalikeDetails) : ℤ :=
  max 0 (min 100 (pyInt (weightedSum mlScore heuristicScore threatIntelScore
    lookalikeScore lookalikeDetails)))

/-- `_get_risk_level` (lines 154-163). -/
def riskLevel (score : ℤ) : String :=
  if score ≤ Config.THRESHOLD_SAFE then "safe"
  else if score ≤ Config.THRESHOLD_SUSPICIOUS then "suspicious"
  else if score ≤ Config.THRESHOLD_DANGEROUS then "dangerous"
  else "critical"

/-- The override condition of lines 92-95. -/
def overrideFires (lookalikeDetails : LookalikeDetails)
    (lookalikeScore heuristicScore : ℤ) : Bool :=
  lookalikeDetails.is_lookalike &&
    (decide (lookalikeScore ≥ 90 ∧ heuristicScore ≥ 60) ||
     decide (lookalikeScore ≥ 80 ∧ heuristicScore ≥ 50) ||
     (decide (lookalikeScore ≥ 75) && lookalikeDetails.homoglyph_detected))

/-- The composite score after the override boost of line 98. -/
def finalComposite (mlScore : ℚ)
    (heuristicScore threatIntelScore lookalikeScore : ℤ)
    (lookalikeDetails : LookalikeDetails) : ℤ :=
  let pre := preOverrideComposite mlScore heuristicScore threatIntelScore
    lookalikeScore lookalikeDetails
  if overrideFires lookalikeDetails lookalikeScore heuristicScore then
    max pre (Config.THRESHOLD_SUSPICIOUS + 10)
  else pre

/-- The phishing verdict: line 87, forced to true by the override. -/
def finalIsPhishing (mlScore : ℚ)
    (heuristicScore threatIntelScore lookalikeScore : ℤ)
    (lookalikeDetails : LookalikeDetails) : Bool :=
  if overrideFires lookalikeDetails lookalikeScore heuristicScore then true
  else
    decide (preOverrideComposite mlScore heuristicScore threatIntelScore
      lookalikeScore lookalikeDetails ≥ Config.THRESHOLD_SUSPICIOUS)

/-- `_calculate_confidence` (lines 165-182). -/
def calculateConfidence (mlConfidence : ℚ) (threatIntelHits : ℤ)
    (lookalikeDetected : Bool) : ℚ :=
  let base := mlConfidence * 0.6
  let withHits :=
    if threatIntelHits > 0 then base + min ((threatIntelHits : ℚ) * 0.15) 0.3
    else base
  let withLookalike := if lookalikeDetected then withHits + 0.1 else withHits
  min withLookalike 0.99

/-- `_get_severity_from_contribution` (lines 283-292). -/
def severityFromContribution (weightPercent : ℤ) : String :=
  if weightPercent ≥ 30 then "critical"
  else if weightPercent ≥ 20 then "high"
  else if weightPercent ≥ 10 then "medium"
  else "low"

/-- `_get_recommendation` (lines 294-302). -/
def recommendationFor (riskLevelName : String) : String :=
  if riskLevelName = "safe" then "allow"
  else if riskLevelName = "suspicious" then "warn"
  else if riskLevelName = "dangerous" then "block"
  else if riskLevelName = "critical" then "block"
  else "warn"

/-- The reason records emitted for one entry of the sorted contributions
list (the body of the `for source, contribution in contributions` loop,
lines 216-267). -/
def reasonsForSource (compositeScore : ℤ) (mlScore : ℚ) (heuristicScore : ℤ)
    (heuristicDetails : HeuristicDetails) (threatIntelDetails : ThreatIntelDetails)
    (lookalikeDetails : LookalikeDetails) (entry : String × ℚ) : List Reason :=
  if entry.2 < 5 then []
  else
    let weightPercent : ℤ :=
      if compositeScore > 0 then pyInt (entry.2 / (compositeScore : ℚ) * 100) else 0
    let severity := severityFromContribution weightPercent
    if entry.1 = "threat_intel" ∧ threatIntelDetails.reasons ≠ [] then
      (threatIntelDetails.reasons.take 3).map (fun reasonText =>
        { factor := reasonText
          severity :=
            if containsSub reasonText.data "OpenPhish".data then "critical" else "high"
          weight := weightPercent
          source := "threat_intelligence" })
    else if entry.1 = "lookalike" ∧ lookalikeDetails.is_lookalike then
      let brand := lookalikeDetails.matched_brand.getD "unknown brand"
      let factorText :=
        match lookalikeDetails.homoglyph_details with
        | some h =>
          if h ≠ "" then
            "Lookalike domain: " ++ h ++ " (impersonating " ++ brand ++ ")"
          else "Lookalike domain detected: similar to " ++ brand
        | none => "Lookalike domain detected: similar to " ++ brand
      [{ factor := factorText, severity := "critical", weight := weightPercent
         source := "lookalike_detection" }]
    else if entry.1 = "heuristic" ∧ heuristicDetails.matched_rules ≠ [] then
      (heuristicDetails.matched_rules.take 3).map (fun rule =>
        { factor := rule.explanation
          severity := rule.severity
          weight :=
            if heuristicScore > 0 then
              pyInt ((rule.score : ℚ) / (heuristicScore : ℚ) * (weightPercent : ℚ))
            else 0
          source := "heuristic_analysis" })
    else if entry.1 = "ml" then
      [{ factor :=
           "ML model predicts " ++ toString (pyInt (mlScore * 100)) ++
             "% probability of phishing"
         severity := severity, weight := weightPercent
         source := "machine_learning" }]
    else []

/-- `_generate_reasons` (lines 184-281). Contributions are computed with the
scorer's stored default weights (`self.weight_*`), sorted stably by
contribution descending; the per-source reason records are appended in that
order, a brand-impersonation reason is prepended, and the list is stably
sorted by weight descending and truncated to 10. -/
def generateReasons (compositeScore : ℤ) (mlScore : ℚ)
    (heuristicScore threatIntelScore lookalikeScore : ℤ)
    (heuristicDetails : HeuristicDetails) (threatIntelDetails : ThreatIntelDetails)
    (lookalikeDetails : LookalikeDetails)
    (brandImpersonationDetails : Option BrandImpersonationDetails) : List Reason :=
  let contributions : List (String × ℚ) :=
    [("ml", mlScore * 100 * Config.WEIGHT_ML),
     ("heuristic", (heuristicScore : ℚ) * Config.WEIGHT_HEURISTIC),
     ("threat_intel", (threatIntelScore : ℚ) * Config.WEIGHT_THREAT_INTEL),
     ("lookalike", (lookalikeScore : ℚ) * Config.WEIGHT_LOOKALIKE)]
  let sorted := contributions.mergeSort (fun a b => decide (b.2 ≤ a.2))
  let collected := sorted.foldl
    (fun acc entry =>
      acc ++ reasonsForSource compositeScore mlScore heuristicScore
        heuristicDetails threatIntelDetails lookalikeDetails entry)
    []
  let withBrand :=
    match brandImpersonationDetails with
    | some b =>
      if b.is_impersonating then
        ({ factor :=
             "Page is impersonating " ++ pyTitle (b.suspected_brand.getD "unknown brand")
           severity := "critical"
           weight := b.impersonation_score
           source := "brand_impersonation" } : Reason) :: collected
      else collected
    | none => collected
  (withBrand.mergeSort (fun a b => decide (b.weight ≤ a.weight))).take 10

/-- `CompositeScorer.calculate_score` (lines 30-152). `now` is the
`datetime.now().isoformat()` reading taken while building the result. -/
def calculateScore (mlScore : ℚ)
    (heuristicScore threatIntelScore lookalikeScore : ℤ)
    (mlDetails : MLDetails) (heuristicDetails : HeuristicDetails)
    (threatIntelDetails : ThreatIntelDetails) (lookalikeDetails : LookalikeDetails)
    (brandImpersonationDetails : Option BrandImpersonationDetails)
    (now : String) : CompositeResult :=
  let w := effectiveWeights lookalikeDetails lookalikeScore
  let compositeScore := finalComposite mlScore heuristicScore threatIntelScore
    lookalikeScore lookalikeDetails
  let risk := riskLevel compositeScore
  let isPhishing := finalIsPhishing mlScore heuristicScore threatIntelScore
    lookalikeScore lookalikeDetails
  let confidence := calculateConfidence mlDetails.confidence threatIntelDetails.hits
    lookalikeDetails.is_lookalike
  let reasons := generateReasons compositeScore mlScore heuristicScore
    threatIntelScore lookalikeScore heuristicDetails threatIntelDetails
    lookalikeDetails brandImpersonationDetails
  { threat_score := compositeScore
    risk_level := risk
    is_phishing := isPhishing
    confidence := pyRound 2 confidence
    recommendation := recommendationFor risk
    analysis :=
      { ml_prediction := pyRound 4 mlScore
        ml_contribution := pyRound 2 (mlScore * 100 * w.1)
        heuristic_score := heuristicScore
        heuristic_contribution := pyRound 2 ((heuristicScore : ℚ) * w.2.1)
        threat_intel_score := threatIntelScore
        threat_intel_contribution := pyRound 2 ((threatIntelScore : ℚ) * w.2.2.1)
        threat_intel_hits := threatIntelDetails.hits
        lookalike_detected := lookalikeDetails.is_lookalike
        lookalike_score := lookalikeScore
        lookalike_contribution := pyRound 2 ((lookalikeScore : ℚ) * w.2.2.2)
        lookalike_brand := lookalikeDetails.matched_brand
        brand_impersonation :=
          (brandImpersonationDetails.map (·.is_impersonating)).getD false
        impersonated_brand :=
          (brandImpersonationDetails.map (·.suspected_brand)).getD none
        reasons := reasons
        model_used := mlDetails.model_used
        inference_time_ms := mlDetails.inference_time_ms }
    timestamp := now }

/-- The result with its `timestamp` field cleared: the part of the record
that does not read the clock. -/
def stripTimestamp (r : CompositeResult) : CompositeResult :=
  { r with timestamp := "" }

/-- Modelled from the spec's score formula (claim C1), written out in the
claim's own terms: `clamp(round(ml*100*w_ml + heuristic*w_h +
threat_intel*w_ti + lookalike*w_lk), 0, 100)`, with the default weights
`{ml 0.40, heuristic 0.25, threat_intel 0.30, lookalike 0.05}` or the
adaptive set `{ml 0.20, heuristic 0.25, threat_intel 0.20, lookalike 0.35}`
when `is_lookalike` holds and the lookalike score is at least 90. Defined
for comparison with `preOverrideComposite`. -/
def claimedCompositeRound (mlScore : ℚ)
    (heuristicScore threatIntelScore lookalikeScore : ℤ)
    (lookalikeDetails : LookalikeDetails) : ℤ :=
  let adaptive := lookalikeDetails.is_lookalike = true ∧ lookalikeScore ≥ 90
  let wMl : ℚ := if adaptive then 0.20 else 0.40
  let wHeuristic : ℚ := 0.25
  let wThreatIntel : ℚ := if adaptive then 0.20 else 0.30
  let wLookalike : ℚ := if adaptive then 0.35 else 0.05
  min (max (pyRound0 (mlScore * 100 * wMl + (heuristicScore : ℚ) * wHeuristic +
    (threatIntelScore : ℚ) * wThreatIntel + (lookalikeScore : ℚ) * wLookalike)) 0) 100

/-- The claim C1 formula amended at its one false point: `round` replaced by
Python's `int` truncation, everything else as the claim states it. -/
def amendedCompositeTrunc (mlScore : ℚ)
    (heuristicScore threatIntelScore lookalikeScore : ℤ)
    (lookalikeDetails : LookalikeDetails) : ℤ :=
  let adaptive := lookalikeDetails.is_lookalike = true ∧ lookalikeScore ≥ 90
  let wMl : ℚ := if adaptive then 0.20 else 0.40
  let wHeuristic : ℚ := 0.25
  let wThreatIntel : ℚ := if adaptive then 0.20 else 0.30
  let wLookalike : ℚ := if adaptive then 0.35 else 0.05
  min (max (pyInt (mlScore * 100 * wMl + (heuristicScore : ℚ) * wHeuristic +
    (threatIntelScore : ℚ) * wThreatIntel + (lookalikeScore : ℚ) * wLookalike)) 0) 100

end Composite

namespace Lookalike

/-! Embedding of `LookalikeDomainDetector`
(`backend/features/lookalike_detector.py`). The detector's input here is the
registrable-domain label already extracted from the URL by `tldextract`
(`extracted.domain`); strings are handled as character lists. Case mapping
(`str.lower`, `str.isalpha`) is the ASCII mapping — every brand label in the
index is ASCII, and the claims checked here concern such labels.
`lev_distance` is the Levenshtein edit distance: the primary import
`Levenshtein.distance` of the source, which the in-repo fallback dynamic
program also computes; it is written here in its textbook recursive form.
`lev_ratio` is the source's fallback formula
`(max_len - distance) / max_len` (`1.0` when both strings are empty). -/

/-- Levenshtein edit distance on character lists. -/
def levDistance (s t : List Char) : ℕ :=
  match s, t with
  | [], t => t.length
  | s, [] => s.length
  | a :: s1, b :: t1 =>
    min (min (levDistance s1 t1 + (if a = b then 0 else 1))
             (levDistance (a :: s1) t1 + 1))
        (levDistance s1 (b :: t1) + 1)
termination_by s.length + t.length
decreasing_by
  all_goals simp [List.length_cons]
  all_goals omega

/-- `lev_ratio`: similarity in [0, 1]. -/
def levSimilarity (s t : List Char) : ℚ :=
  let maxLen := max s.length t.length
  if maxLen = 0 then 1
  else ((maxLen : ℚ) - (levDistance s t : ℚ)) / (maxLen : ℚ)

def brandWhitelist : List (String × List String) := [
  ("financial",
    ["paypal.com", "chase.com", "bankofamerica.com", "wellsfargo.com", "capitalone.com",
     "citi.com", "usbank.com", "barclays.com", "hsbc.com", "americanexpress.com",
     "discover.com", "ally.com", "goldmansachs.com", "morganstanley.com", "schwab.com",
     "fidelity.com", "vanguard.com", "etrade.com", "tdameritrade.com", "robinhood.com",
     "coinbase.com", "binance.com", "kraken.com", "gemini.com", "stripe.com", "square.com",
     "venmo.com", "cashapp.com", "transferwise.com", "revolut.com", "monzo.com", "n26.com",
     "santander.com", "bbva.com", "bnpparibas.com", "dbs.com", "standardchartered.com",
     "rbs.com", "lloydsbank.com", "nationwide.com", "pnc.com", "truist.com", "regions.com",
     "suntrust.com", "navyfederal.com", "usaa.com", "keybank.com", "bbt.com",
     "fifth-third.com", "citizensbank.com"]),
  ("tech",
    ["google.com", "microsoft.com", "apple.com", "amazon.com", "facebook.com", "meta.com",
     "instagram.com", "whatsapp.com", "twitter.com", "x.com", "linkedin.com", "youtube.com",
     "netflix.com", "spotify.com", "adobe.com", "salesforce.com", "oracle.com", "ibm.com",
     "sap.com", "cisco.com", "intel.com", "nvidia.com", "amd.com", "dell.com", "hp.com",
     "lenovo.com", "asus.com", "samsung.com", "sony.com", "lg.com", "panasonic.com",
     "toshiba.com", "alibaba.com", "tencent.com", "baidu.com", "jd.com", "zoom.com",
     "slack.com", "dropbox.com", "box.com", "github.com", "gitlab.com", "bitbucket.com",
     "atlassian.com", "asana.com", "trello.com", "notion.com", "monday.com", "shopify.com",
     "squarespace.com", "wix.com", "wordpress.com"]),
  ("email",
    ["gmail.com", "outlook.com", "yahoo.com", "protonmail.com", "icloud.com", "aol.com",
     "hotmail.com", "live.com", "mail.com", "zoho.com", "yandex.com", "gmx.com",
     "tutanota.com", "fastmail.com", "hushmail.com", "runbox.com", "mailbox.org",
     "posteo.de", "mailfence.com", "startmail.com", "telegram.com", "signal.org",
     "discord.com", "skype.com", "viber.com", "line.me", "wechat.com", "kakao.com",
     "messenger.com", "snapchat.com"]),
  ("ecommerce",
    ["amazon.com", "ebay.com", "walmart.com", "target.com", "bestbuy.com", "homedepot.com",
     "lowes.com", "costco.com", "macys.com", "nordstrom.com", "kohls.com", "jcpenney.com",
     "alibaba.com", "aliexpress.com", "etsy.com", "wayfair.com", "overstock.com",
     "newegg.com", "zappos.com", "chewy.com", "instacart.com", "doordash.com",
     "ubereats.com", "grubhub.com", "postmates.com", "seamless.com", "deliveroo.com",
     "just-eat.com", "booking.com", "expedia.com", "airbnb.com", "hotels.com", "trivago.com",
     "kayak.com", "priceline.com", "orbitz.com", "travelocity.com", "hotwire.com",
     "tripadvisor.com", "vrbo.com"]),
  ("social",
    ["facebook.com", "instagram.com", "twitter.com", "linkedin.com", "tiktok.com",
     "snapchat.com", "pinterest.com", "reddit.com", "tumblr.com", "flickr.com", "medium.com",
     "quora.com", "stackoverflow.com", "behance.net", "dribbble.com", "vimeo.com",
     "twitch.tv", "dailymotion.com", "soundcloud.com", "mixcloud.com", "mastodon.social",
     "threads.net", "bluesky.social", "truthsocial.com", "parler.com"]),
  ("enterprise",
    ["salesforce.com", "microsoft.com", "office365.com", "office.com", "google.com",
     "workspace.google.com", "aws.amazon.com", "azure.com", "cloud.google.com", "ibm.com",
     "oracle.com", "sap.com", "servicenow.com", "workday.com", "adp.com", "paychex.com",
     "zendesk.com", "freshworks.com", "hubspot.com", "mailchimp.com", "constantcontact.com",
     "sendgrid.com", "twilio.com", "vonage.com", "ringcentral.com", "goto.com", "webex.com",
     "teams.microsoft.com", "docusign.com", "adobesign.com", "hellosign.com", "pandadoc.com",
     "jira.atlassian.com", "confluence.atlassian.com", "monday.com", "asana.com",
     "basecamp.com", "smartsheet.com", "airtable.com", "clickup.com"]),
  ("government",
    ["usa.gov", "irs.gov", "usps.com", "usps.gov", "ssa.gov", "fbi.gov", "dhs.gov",
     "state.gov", "nasa.gov", "cdc.gov", "nih.gov", "fda.gov", "epa.gov", "sec.gov",
     "ftc.gov", "dol.gov", "va.gov", "medicare.gov", "socialsecurity.gov", "dmv.org",
     "gov.uk", "nhs.uk", "gov.au", "gov.ca", "europa.eu", "un.org", "who.int",
     "worldbank.org", "imf.org", "nato.int"]),
  ("education",
    ["edu", "harvard.edu", "mit.edu", "stanford.edu", "berkeley.edu", "yale.edu",
     "princeton.edu", "columbia.edu", "upenn.edu", "cornell.edu", "caltech.edu",
     "northwestern.edu", "duke.edu", "brown.edu", "dartmouth.edu", "vanderbilt.edu",
     "rice.edu", "notredame.edu", "georgetown.edu", "cmu.edu", "usc.edu", "ucla.edu",
     "ucsd.edu", "ucsb.edu", "ox.ac.uk", "cam.ac.uk", "imperial.ac.uk", "ucl.ac.uk",
     "coursera.org", "udemy.com", "khanacademy.org", "edx.org"]),
  ("streaming",
    ["netflix.com", "hulu.com", "disneyplus.com", "hbomax.com", "primevideo.com",
     "youtube.com", "twitch.tv", "vimeo.com", "spotify.com", "applemusic.com", "pandora.com",
     "soundcloud.com", "tidal.com", "deezer.com", "amazonmusic.com", "youtubemusic.com",
     "peacocktv.com", "paramountplus.com", "showtime.com", "starz.com", "espn.com",
     "nfl.com", "nba.com", "mlb.com", "sling.com"]),
  ("gaming",
    ["steam.com", "epicgames.com", "origin.com", "ubisoft.com", "ea.com", "activision.com",
     "blizzard.com", "riotgames.com", "playstation.com", "xbox.com", "nintendo.com",
     "nintendo.co.jp", "twitch.tv", "discord.com", "roblox.com", "minecraft.net",
     "fortnite.com", "leagueoflegends.com", "valorant.com", "overwatch.com",
     "callofduty.com", "battlefield.com", "gog.com", "humblebundle.com", "itch.io"]),
  ("storage",
    ["dropbox.com", "drive.google.com", "onedrive.com", "icloud.com", "box.com", "mega.nz",
     "sync.com", "pcloud.com", "icedrive.net", "tresorit.com", "nextcloud.com",
     "owncloud.com", "backblaze.com", "carbonite.com", "idrive.com", "crashplan.com",
     "s3.amazonaws.com", "storage.googleapis.com", "blob.core.windows.net", "digitalocean.com"]),
  ("security",
    ["nordvpn.com", "expressvpn.com", "surfshark.com", "cyberghost.com", "privatevpn.com",
     "purevpn.com", "ipvanish.com", "tunnelbear.com", "protonvpn.com", "mullvad.net",
     "windscribe.com", "vypr.com", "lastpass.com", "1password.com", "dashlane.com",
     "bitwarden.com", "keeper.com", "roboform.com", "nortonlifelock.com", "mcafee.com",
     "avg.com", "avast.com", "kaspersky.com", "bitdefender.com", "malwarebytes.com"])]

/-- The brand index flattened in iteration order (Python dicts preserve
insertion order), each brand tagged with its category. -/
def allBrands : List (String × String) :=
  brandWhitelist.flatMap (fun cb => cb.2.map (fun b => (cb.1, b)))

/-- `brand.split('.')[0].lower()`: the brand label. -/
def brandLabel (brand : String) : List Char :=
  (brand.data.takeWhile (fun c => decide (c ≠ '.'))).map Char.toLower

/-- The homoglyph substitution map of the detector constructor. -/
def homoglyphs : List (Char × List Char) := [
  ('a', ['а', 'ạ', 'ă', 'ą']),
  ('e', ['е', 'ė', 'ę', 'ế']),
  ('i', ['і', 'ı', 'l', '1', '!']),
  ('o', ['о', 'ο', '0', 'ö', 'ø']),
  ('p', ['р', 'ρ']),
  ('c', ['с', 'ϲ']),
  ('y', ['у', 'ỳ', 'ý']),
  ('x', ['х', 'χ']),
  ('b', ['ь', 'ḃ']),
  ('h', ['һ', 'ḣ']),
  ('n', ['п', 'ո']),
  ('m', ['т', 'ṁ']),
  ('s', ['ѕ', 'ṡ']),
  ('g', ['ɡ', 'ġ']),
  ('l', ['1', 'I', 'і', '|'])]

/-- `self.homoglyphs[c]` lookup (`none` when `c` is not a key). -/
def homoglyphsAt (c : Char) : Option (List Char) :=
  (homoglyphs.find? (fun e => decide (e.1 = c))).map (·.2)

/-- The flag message for one substituted character position. -/
def homoglyphMessage (charD charB : Char) (i : ℕ) : String :=
  "Uses " ++ asciiQuote ++ String.mk [charD] ++ asciiQuote ++ " instead of " ++
    asciiQuote ++ String.mk [charB] ++ asciiQuote ++ " at position " ++ toString (i + 1)

/-- Whether `cd` is listed as a homoglyph of `cb` (one direction). -/
def isListedHomoglyph (cb cd : Char) : Bool :=
  match homoglyphsAt cb with
  | some l => cd ∈ l
  | none => false

/-- The character-by-character loop of `_check_homoglyphs` over
`zip(domain, brand_domain)` (checking the map in both directions). -/
def homoglyphScan : List (Char × Char) → ℕ → Option String
  | [], _ => none
  | (charD, charB) :: rest, i =>
    if charD ≠ charB ∧ (isListedHomoglyph charB charD ∨ isListedHomoglyph charD charB) then
      some (homoglyphMessage charD charB i)
    else homoglyphScan rest (i + 1)

/-- Cyrillic range test of `_check_homoglyphs`. -/
def isCyrillicChar (c : Char) : Bool :=
  decide (('а' ≤ c ∧ c ≤ 'я') ∨ ('А' ≤ c ∧ c ≤ 'Я'))

/-- Greek range test of `_check_homoglyphs`. -/
def isGreekChar (c : Char) : Bool :=
  decide (('α' ≤ c ∧ c ≤ 'ω') ∨ ('Α' ≤ c ∧ c ≤ 'Ω'))

/-- The set of scripts seen in the domain, as (cyrillic, greek, latin)
membership flags; `char.isalpha` is the ASCII approximation (see the
namespace comment). -/
def scriptsOf (d : List Char) : Bool × Bool × Bool :=
  d.foldl
    (fun st c =>
      if isCyrillicChar c then (true, st.2.1, st.2.2)
      else if isGreekChar c then (st.1, true, st.2.2)
      else if c.isAlpha then (st.1, st.2.1, true)
      else st)
    (false, false, false)

/-- How many scripts were seen. -/
def scriptCount (st : Bool × Bool × Bool) : ℕ :=
  (if st.1 then 1 else 0) + (if st.2.1 then 1 else 0) + (if st.2.2 then 1 else 0)

/-- The names of the seen scripts (the source joins a Python set; the order
here is fixed as cyrillic, greek, latin). -/
def scriptNames (st : Bool × Bool × Bool) : List String :=
  (if st.1 then ["cyrillic"] else []) ++ (if st.2.1 then ["greek"] else []) ++
    (if st.2.2 then ["latin"] else [])

/-- `_check_homoglyphs` (lines 313-349): character-substitution scan against
the best-matching brand, then the mixed-script check on the domain itself. -/
def checkHomoglyphs (d : List Char) (brand : Option String) : Bool × Option String :=
  match brand with
  | none => (false, none)
  | some b =>
    match homoglyphScan (d.zip (brandLabel b)) 0 with
    | some msg => (true, some msg)
    | none =>
      let st := scriptsOf d
      if scriptCount st > 1 then
        (true, some ("Mixed scripts detected: " ++ String.intercalate ", " (scriptNames st)))
      else (false, none)

/-- The detector's similarity threshold (`0.85`). -/
def similarityThreshold : ℚ := 0.85

/-- The similarity assigned to one brand: `0.95` for an embedded brand label
(`brand_domain in domain and brand_domain != domain`), else the Levenshtein
similarity. -/
def simOf (d bd : List Char) : ℚ :=
  if containsSub d bd ∧ bd ≠ d then 0.95 else levSimilarity d bd

/-- The distance paired with `simOf`. -/
def distOf (d bd : List Char) : ℤ :=
  if containsSub d bd ∧ bd ≠ d then (d.length : ℤ) - (bd.length : ℤ)
  else (levDistance d bd : ℤ)

/-- Running best match of the brand loop. -/
structure BestState where
  sim : ℚ
  dist : ℤ
  brand : Option (String × String)

/-- Initial best-match state (lines 245-248). -/
def initBest : BestState := { sim := 0, dist := 999, brand := none }

/-- One iteration of the brand loop: update on strict improvement
(`similarity > best_similarity`). -/
def bestStep (d : List Char) (st : BestState) (cb : String × String) : BestState :=
  let bd := brandLabel cb.2
  if st.sim < simOf d bd then
    { sim := simOf d bd, dist := distOf d bd, brand := some cb }
  else st

/-- The result dictionary of `detect_lookalike`. -/
structure LookalikeResult where
  is_lookalike : Bool
  lookalike_score : ℤ
  matched_brand : Option String
  brand_category : Option String
  similarity_score : ℚ
  levenshtein_distance : ℤ
  homoglyph_detected : Bool
  homoglyph_details : Option String

/-- `detect_lookalike` (lines 240-307), taking the extracted
registrable-domain label. -/
def detectLookalike (domain : String) : LookalikeResult :=
  let d := domain.data.map Char.toLower
  let best := allBrands.foldl (bestStep d) initBest
  let hg := checkHomoglyphs d (best.brand.map (·.2))
  let isLookalike : Bool :=
    (decide (best.sim ≥ similarityThreshold) && best.brand.isSome &&
      decide (d ≠ (best.brand.map (fun cb => brandLabel cb.2)).getD [])) || hg.1
  let score : ℤ :=
    if isLookalike then
      let base := pyInt (best.sim * 100)
      let withHg := if hg.1 then min 100 (base + 15) else base
      if best.sim > 0.95 then min 100 (withHg + 10) else withHg
    else 0
  { is_lookalike := isLookalike
    lookalike_score := score
    matched_brand := if isLookalike then best.brand.map (·.2) else none
    brand_category := if isLookalike then best.brand.map (·.1) else none
    similarity_score := pyRound 4 best.sim
    levenshtein_distance := best.dist
    homoglyph_detected := hg.1
    homoglyph_details := hg.2 }

end Lookalike

/-! ## Theorems -/

/-- Helper: folding `min` over a list whose seed is a lower bound of every
element returns the seed. -/
theorem foldl_min_of_le (d : ℤ) (ds : List ℤ) (h : ∀ x ∈ ds, d ≤ x) :
    ds.foldl min d = d := by
  induction ds with
  | nil => rfl
  | cons x xs ih =>
    have hd : min d x = d := min_eq_left (h x (List.mem_cons_self x xs))
    simp only [List.foldl_cons, hd]
    exact ih (fun y hy => h y (List.mem_cons_of_mem x hy))

/-- C5. The TTL chosen by `ThreatCache.set_url_analysis` is a pure function
of the stored verdict: no expiry when `risk_level` is critical or the
threat score is at least 90; otherwise the 7-day positive TTL from a score
of at least 60; otherwise the 24-hour negative TTL. Equal verdicts receive
equal TTLs. -/
theorem cache_ttl_policy (v : ThreatCache.Verdict) :
    (v.risk_level = "critical" ∨ v.threat_score ≥ 90 →
      ThreatCache.setUrlAnalysisTTL v = none) ∧
    (v.risk_level ≠ "critical" → v.threat_score < 90 → v.threat_score ≥ 60 →
      ThreatCache.setUrlAnalysisTTL v = some 604800) ∧
    (v.risk_level ≠ "critical" → v.threat_score < 90 → v.threat_score < 60 →
      ThreatCache.setUrlAnalysisTTL v = some 86400) ∧
    (∀ w : ThreatCache.Verdict, v = w →
      ThreatCache.setUrlAnalysisTTL v = ThreatCache.setUrlAnalysisTTL w) := by
  refine ⟨?_, ?_, ?_, ?_⟩
  · intro h
    simp only [ThreatCache.setUrlAnalysisTTL, if_pos h]
  · intro h1 h2 h3
    rw [ThreatCache.setUrlAnalysisTTL, if_neg (by push_neg; exact ⟨h1, by omega⟩),
      if_pos h3]
    rfl
  · intro h1 h2 h3
    rw [ThreatCache.setUrlAnalysisTTL, if_neg (by push_neg; exact ⟨h1, by omega⟩),
      if_neg (by omega)]
    rfl
  · intro w hw
    rw [hw]

/-- Witness for C5 at concrete verdicts, one per TTL tier. -/
theorem cache_ttl_policy_witness :
    ThreatCache.setUrlAnalysisTTL ⟨95, "dangerous"⟩ = none ∧
    ThreatCache.setUrlAnalysisTTL ⟨70, "dangerous"⟩ = some 604800 ∧
    ThreatCache.setUrlAnalysisTTL ⟨10, "safe"⟩ = some 86400 :=
  ⟨(cache_ttl_policy ⟨95, "dangerous"⟩).1 (Or.inr (by decide)),
   (cache_ttl_policy ⟨70, "dangerous"⟩).2.1 (by decide) (by decide) (by decide),
   (cache_ttl_policy ⟨10, "safe"⟩).2.2.1 (by decide) (by decide) (by decide)⟩

/-- C9, counterexample. With WHOIS creation dates [day 900, day 100] (first
listed is not the earliest) and now at day 1000, the source uses the first
date: age 100 days and recently-registered flag 1, while the claimed
earliest-date parse gives age 900 days and flag 0. -/
theorem whois_age_counterexample :
    DomainAge.extract (86400 * 1000)
        (.several [86400 * 900, 86400 * 100]) =
      { domain_age_days := 100, domain_registered_recently := 1 } ∧
    DomainAge.extractSpecEarliest (86400 * 1000)
        (.several [86400 * 900, 86400 * 100]) =
      { domain_age_days := 900, domain_registered_recently := 0 } ∧
    DomainAge.extract (86400 * 1000) (.several [86400 * 900, 86400 * 100]) ≠
      DomainAge.extractSpecEarliest (86400 * 1000)
        (.several [86400 * 900, 86400 * 100]) := by
  refine ⟨by decide, by decide, by decide⟩

/-- C9, amended. The extractor uses the first creation date of the list
(not the earliest): `domain_age_days` is the whole-day age computed from
that first date and the recently-registered flag is 1 iff that age is
strictly below 180 days; the claimed earliest-date behaviour holds exactly
when the first listed date is a minimal one. -/
theorem whois_age_first_date (now d : ℤ) (ds : List ℤ) :
    DomainAge.extract now (.several (d :: ds)) =
      { domain_age_days := Int.fdiv (now - d) 86400
        domain_registered_recently :=
          if Int.fdiv (now - d) 86400 < 180 then 1 else 0 } ∧
    ((∀ x ∈ ds, d ≤ x) →
      DomainAge.extract now (.several (d :: ds)) =
        DomainAge.extractSpecEarliest now (.several (d :: ds))) := by
  constructor
  · rfl
  · intro h
    simp only [DomainAge.extract, DomainAge.extractSpecEarliest,
      foldl_min_of_le d ds h]

/-- Witness for C9's amended theorem at a concrete sorted date list. -/
theorem whois_age_first_date_witness :
    (∀ x ∈ ([86400 * 300] : List ℤ), (86400 * 200 : ℤ) ≤ x) ∧
    DomainAge.extract (86400 * 1000) (.several [86400 * 200, 86400 * 300]) =
      DomainAge.extractSpecEarliest (86400 * 1000)
        (.several [86400 * 200, 86400 * 300]) :=
  ⟨by decide, (whois_age_first_date (86400 * 1000) (86400 * 200) [86400 * 300]).2 (by decide)⟩

/-- C10. If `detect_lookalike` does not flag a domain, the returned record
carries a lookalike score of exactly 0 and no matched brand — a best
similarity below the 0.85 threshold with no homoglyph contributes 0 to
fusion, not its similarity percentage. -/
theorem lookalike_unflagged_is_zero (domain : String)
    (h : (Lookalike.detectLookalike domain).is_lookalike = false) :
    (Lookalike.detectLookalike domain).lookalike_score = 0 ∧
    (Lookalike.detectLookalike domain).matched_brand = none := by
  simp only [Lookalike.detectLookalike] at h ⊢
  simp only [h, Bool.false_eq_true, if_false, and_self]

set_option maxRecDepth 8000 in
/-- Helper: every brand label of the index is a nonempty string. -/
theorem brand_labels_nonempty :
    ∀ cb ∈ Lookalike.allBrands, Lookalike.brandLabel cb.2 ≠ [] := by decide

/-- Helper: Levenshtein distance from the empty string is the length. -/
theorem levDistance_nil_left (t : List Char) :
    Lookalike.levDistance [] t = t.length := by
  cases t <;> simp [Lookalike.levDistance]

/-- Helper: similarity of the empty candidate against a nonempty label is 0. -/
theorem levSimilarity_nil_left (t : List Char) (ht : t ≠ []) :
    Lookalike.levSimilarity [] t = 0 := by
  have hl : t.length ≠ 0 := by simpa [List.length_eq_zero] using ht
  simp [Lookalike.levSimilarity, levDistance_nil_left, hl]

/-- Helper: the per-brand similarity of the empty candidate is 0. -/
theorem simOf_nil_left (bd : List Char) (h : bd ≠ []) :
    Lookalike.simOf [] bd = 0 := by
  have hc : ¬(containsSub [] bd = true ∧ bd ≠ []) := by
    rintro ⟨hsub, -⟩
    have : bd.isEmpty = true := by simpa [containsSub] using hsub
    exact h (by simpa [List.isEmpty_iff] using this)
  simp [Lookalike.simOf, hc, levSimilarity_nil_left bd h]

/-- Helper: on the empty candidate the brand loop never updates the initial
best-match state. -/
theorem foldl_bestStep_nil (bs : List (String × String))
    (h : ∀ cb ∈ bs, Lookalike.brandLabel cb.2 ≠ []) :
    bs.foldl (Lookalike.bestStep []) Lookalike.initBest = Lookalike.initBest := by
  induction bs with
  | nil => rfl
  | cons cb bs ih =>
    have hs := simOf_nil_left _ (h cb (List.mem_cons_self cb bs))
    have hstep : Lookalike.bestStep [] Lookalike.initBest cb = Lookalike.initBest := by
      simp [Lookalike.bestStep, hs, Lookalike.initBest]
    rw [List.foldl_cons, hstep]
    exact ih (fun x hx => h x (List.mem_cons_of_mem cb hx))

/-- Helper: the empty domain is not reported as a lookalike. -/
theorem detect_empty_not_lookalike :
    (Lookalike.detectLookalike "").is_lookalike = false := by
  simp only [Lookalike.detectLookalike]
  rw [show ("".data.map Char.toLower) = [] from rfl,
    foldl_bestStep_nil Lookalike.allBrands brand_labels_nonempty]
  simp [Lookalike.initBest, Lookalike.checkHomoglyphs, Lookalike.similarityThreshold]

/-- Witness for C10 at the empty domain label. -/
theorem lookalike_unflagged_is_zero_witness :
    (Lookalike.detectLookalike "").is_lookalike = false ∧
    (Lookalike.detectLookalike "").lookalike_score = 0 ∧
    (Lookalike.detectLookalike "").matched_brand = none :=
  ⟨detect_empty_not_lookalike,
   (lookalike_unflagged_is_zero "" detect_empty_not_lookalike).1,
   (lookalike_unflagged_is_zero "" detect_empty_not_lookalike).2⟩

/-- C7, counterexample. Two consecutive calls of `calculate_score` on
identical inputs read the clock twice; the returned records differ in the
`timestamp` field, so they are not identical in every field. -/
theorem composite_two_calls_differ :
    Composite.calculateScore 0 0 0 0 ⟨0, "primary", 0⟩ ⟨[]⟩ ⟨0, []⟩
        ⟨false, false, none, none⟩ none "2024-01-01T00:00:00" ≠
      Composite.calculateScore 0 0 0 0 ⟨0, "primary", 0⟩ ⟨[]⟩ ⟨0, []⟩
        ⟨false, false, none, none⟩ none "2024-01-01T00:00:01" := by
  intro h
  have ht := congrArg Composite.CompositeResult.timestamp h
  simp only [Composite.calculateScore] at ht
  exact absurd ht (by decide)

/-- C7, amended. Fusion is deterministic in every field except `timestamp`:
for identical features and identical collaborator outputs, two calls of
`calculate_score` agree on the whole record once the clock-reading
`timestamp` field is put aside. -/
theorem composite_fusion_deterministic (mlScore : ℚ)
    (heuristicScore threatIntelScore lookalikeScore : ℤ)
    (mlDetails : Composite.MLDetails) (heuristicDetails : Composite.HeuristicDetails)
    (threatIntelDetails : Composite.ThreatIntelDetails)
    (lookalikeDetails : Composite.LookalikeDetails)
    (brandImpersonationDetails : Option Composite.BrandImpersonationDetails)
    (now1 now2 : String) :
    Composite.stripTimestamp
        (Composite.calculateScore mlScore heuristicScore threatIntelScore
          lookalikeScore mlDetails heuristicDetails threatIntelDetails
          lookalikeDetails brandImpersonationDetails now1) =
      Composite.stripTimestamp
        (Composite.calculateScore mlScore heuristicScore threatIntelScore
          lookalikeScore mlDetails heuristicDetails threatIntelDetails
          lookalikeDetails brandImpersonationDetails now2) := rfl

/-- Helper: any composite score above the safe threshold is mapped to one
of the three elevated risk levels. -/
theorem riskLevel_elevated (c : ℤ) (hc : 31 ≤ c) :
    Composite.riskLevel c = "suspicious" ∨ Composite.riskLevel c = "dangerous" ∨
      Composite.riskLevel c = "critical" := by
  unfold Composite.riskLevel
  simp only [Config.THRESHOLD_SAFE, Config.THRESHOLD_SUSPICIOUS,
    Config.THRESHOLD_DANGEROUS]
  split_ifs with h1 h2 h3
  · exact absurd h1 (by omega)
  · exact Or.inl rfl
  · exact Or.inr (Or.inl rfl)
  · exact Or.inr (Or.inr rfl)

/-- C3. Whenever the composite result reports phishing, its risk level is
suspicious, dangerous or critical — never safe. -/
theorem composite_phishing_not_safe (mlScore : ℚ)
    (heuristicScore threatIntelScore lookalikeScore : ℤ)
    (mlDetails : Composite.MLDetails) (heuristicDetails : Composite.HeuristicDetails)
    (threatIntelDetails : Composite.ThreatIntelDetails)
    (lookalikeDetails : Composite.LookalikeDetails)
    (brandImpersonationDetails : Option Composite.BrandImpersonationDetails)
    (now : String)
    (h : (Composite.calculateScore mlScore heuristicScore threatIntelScore
      lookalikeScore mlDetails heuristicDetails threatIntelDetails
      lookalikeDetails brandImpersonationDetails now).is_phishing = true) :
    (Composite.calculateScore mlScore heuristicScore threatIntelScore
      lookalikeScore mlDetails heuristicDetails threatIntelDetails
      lookalikeDetails brandImpersonationDetails now).risk_level = "suspicious" ∨
    (Composite.calculateScore mlScore heuristicScore threatIntelScore
      lookalikeScore mlDetails heuristicDetails threatIntelDetails
      lookalikeDetails brandImpersonationDetails now).risk_level = "dangerous" ∨
    (Composite.calculateScore mlScore heuristicScore threatIntelScore
      lookalikeScore mlDetails heuristicDetails threatIntelDetails
      lookalikeDetails brandImpersonationDetails now).risk_level = "critical" := by
  simp only [Composite.calculateScore] at h ⊢
  rcases Bool.eq_false_or_eq_true
    (Composite.overrideFires lookalikeDetails lookalikeScore heuristicScore) with hov | hov
  · rw [Composite.finalComposite, if_pos hov]
    refine riskLevel_elevated _ ?_
    have := le_max_right
      (Composite.preOverrideComposite mlScore heuristicScore threatIntelScore
        lookalikeScore lookalikeDetails) (Config.THRESHOLD_SUSPICIOUS + 10)
    simp only [Config.THRESHOLD_SUSPICIOUS] at this ⊢
    omega
  · rw [Composite.finalIsPhishing, if_neg (by simp [hov])] at h
    have hpre : Composite.preOverrideComposite mlScore heuristicScore
        threatIntelScore lookalikeScore lookalikeDetails ≥
        Config.THRESHOLD_SUSPICIOUS := of_decide_eq_true h
    rw [Composite.finalComposite, if_neg (by simp [hov])]
    exact riskLevel_elevated _
      (by simp only [Config.THRESHOLD_SUSPICIOUS] at hpre; omega)

/-- Witness for C3 at a concrete override-triggering input. -/
theorem composite_phishing_not_safe_witness :
    (Composite.calculateScore 0 70 0 95 ⟨0, "primary", 0⟩ ⟨[]⟩ ⟨0, []⟩
      ⟨true, false, none, none⟩ none "t").is_phishing = true ∧
    ((Composite.calculateScore 0 70 0 95 ⟨0, "primary", 0⟩ ⟨[]⟩ ⟨0, []⟩
      ⟨true, false, none, none⟩ none "t").risk_level = "suspicious" ∨
    (Composite.calculateScore 0 70 0 95 ⟨0, "primary", 0⟩ ⟨[]⟩ ⟨0, []⟩
      ⟨true, false, none, none⟩ none "t").risk_level = "dangerous" ∨
    (Composite.calculateScore 0 70 0 95 ⟨0, "primary", 0⟩ ⟨[]⟩ ⟨0, []⟩
      ⟨true, false, none, none⟩ none "t").risk_level = "critical") :=
  ⟨by decide,
   composite_phishing_not_safe 0 70 0 95 ⟨0, "primary", 0⟩ ⟨[]⟩ ⟨0, []⟩
     ⟨true, false, none, none⟩ none "t" (by decide)⟩

/-- C2. When the lookalike result is flagged and any override condition
holds (score at least 90 with heuristic at least 60; or at least 80 with
heuristic at least 50; or at least 75 with a detected homoglyph), the
returned verdict is phishing, the threat score is exactly
`max(pre-override composite, 70)`, and the override never lowers the
score. -/
theorem composite_override_boost (mlScore : ℚ)
    (heuristicScore threatIntelScore lookalikeScore : ℤ)
    (mlDetails : Composite.MLDetails) (heuristicDetails : Composite.HeuristicDetails)
    (threatIntelDetails : Composite.ThreatIntelDetails)
    (lookalikeDetails : Composite.LookalikeDetails)
    (brandImpersonationDetails : Option Composite.BrandImpersonationDetails)
    (now : String)
    (h1 : lookalikeDetails.is_lookalike = true)
    (h2 : (lookalikeScore ≥ 90 ∧ heuristicScore ≥ 60) ∨
      (lookalikeScore ≥ 80 ∧ heuristicScore ≥ 50) ∨
      (lookalikeScore ≥ 75 ∧ lookalikeDetails.homoglyph_detected = true)) :
    (Composite.calculateScore mlScore heuristicScore threatIntelScore
      lookalikeScore mlDetails heuristicDetails threatIntelDetails
      lookalikeDetails brandImpersonationDetails now).is_phishing = true ∧
    (Composite.calculateScore mlScore heuristicScore threatIntelScore
      lookalikeScore mlDetails heuristicDetails threatIntelDetails
      lookalikeDetails brandImpersonationDetails now).threat_score =
      max (Composite.preOverrideComposite mlScore heuristicScore threatIntelScore
        lookalikeScore lookalikeDetails) 70 ∧
    Composite.preOverrideComposite mlScore heuristicScore threatIntelScore
        lookalikeScore lookalikeDetails ≤
      (Composite.calculateScore mlScore heuristicScore threatIntelScore
        lookalikeScore mlDetails heuristicDetails threatIntelDetails
        lookalikeDetails brandImpersonationDetails now).threat_score := by
  have hov : Composite.overrideFires lookalikeDetails lookalikeScore
      heuristicScore = true := by
    simp only [Composite.overrideFires, h1, Bool.true_and, Bool.or_eq_true,
      Bool.and_eq_true, decide_eq_true_eq]
    tauto
  have hts : Config.THRESHOLD_SUSPICIOUS + 10 = 70 := rfl
  refine ⟨?_, ?_, ?_⟩
  · simp only [Composite.calculateScore, Composite.finalIsPhishing, hov, if_true]
  · simp only [Composite.calculateScore, Composite.finalComposite, hov, if_true, hts]
  · simp only [Composite.calculateScore, Composite.finalComposite, hov, if_true]
    exact le_max_left _ _

/-- Witness for C2 at a concrete flagged input with the first override
condition satisfied. -/
theorem composite_override_boost_witness :
    ((⟨true, false, none, none⟩ : Composite.LookalikeDetails).is_lookalike = true) ∧
    ((95 : ℤ) ≥ 90 ∧ (70 : ℤ) ≥ 60) ∧
    ((Composite.calculateScore 0 70 0 95 ⟨0, "primary", 0⟩ ⟨[]⟩ ⟨0, []⟩
      ⟨true, false, none, none⟩ none "t").is_phishing = true ∧
    (Composite.calculateScore 0 70 0 95 ⟨0, "primary", 0⟩ ⟨[]⟩ ⟨0, []⟩
      ⟨true, false, none, none⟩ none "t").threat_score =
      max (Composite.preOverrideComposite 0 70 0 95 ⟨true, false, none, none⟩) 70 ∧
    Composite.preOverrideComposite 0 70 0 95 ⟨true, false, none, none⟩ ≤
      (Composite.calculateScore 0 70 0 95 ⟨0, "primary", 0⟩ ⟨[]⟩ ⟨0, []⟩
        ⟨true, false, none, none⟩ none "t").threat_score) :=
  ⟨rfl, ⟨by decide, by decide⟩,
   composite_override_boost 0 70 0 95 ⟨0, "primary", 0⟩ ⟨[]⟩ ⟨0, []⟩
     ⟨true, false, none, none⟩ none "t" rfl (Or.inl ⟨by decide, by decide⟩)⟩

/-- Helper: the two clamp spellings agree on integers. -/
theorem clamp_comm (v : ℤ) : max 0 (min 100 v) = min (max v 0) 100 := by omega

/-- C1, counterexample. At ml 0, heuristic 3, threat-intel 0, lookalike 0
(no lookalike flag, default weights) the weighted sum is 0.75: the claimed
`clamp(round(...))` formula gives 1, while the source truncates with
`int(...)` and yields 0. -/
theorem composite_round_counterexample :
    Composite.claimedCompositeRound 0 3 0 0 ⟨false, false, none, none⟩ = 1 ∧
    Composite.preOverrideComposite 0 3 0 0 ⟨false, false, none, none⟩ = 0 ∧
    Composite.preOverrideComposite 0 3 0 0 ⟨false, false, none, none⟩ ≠
      Composite.claimedCompositeRound 0 3 0 0 ⟨false, false, none, none⟩ := by
  have hsum : Composite.weightedSum 0 3 0 0 ⟨false, false, none, none⟩ = 3 / 4 := by
    simp [Composite.weightedSum, Composite.effectiveWeights, Config.WEIGHT_ML,
      Config.WEIGHT_HEURISTIC, Config.WEIGHT_THREAT_INTEL, Config.WEIGHT_LOOKALIKE]
    norm_num
  have hfloor : (⌊(3 / 4 : ℚ)⌋ : ℤ) = 0 := by
    rw [Int.floor_eq_iff]
    norm_num
  refine ⟨?_, ?_, ?_⟩
  · simp only [Composite.claimedCompositeRound]
    norm_num [pyRound0, hfloor]
  · simp only [Composite.preOverrideComposite, hsum, pyInt]
    norm_num [hfloor]
  · simp only [Composite.claimedCompositeRound, Composite.preOverrideComposite,
      hsum, pyInt]
    norm_num [pyRound0, hfloor]

/-- C1, amended. For inputs in range, the pre-override composite computed
by `calculate_score` equals the claimed formula with `round` amended to
Python's `int` truncation: `clamp(trunc(ml*100*w_ml + heuristic*w_h +
threat_intel*w_ti + lookalike*w_lk), 0, 100)` with the default weights, or
the adaptive set when the lookalike flag holds with score at least 90. -/
theorem composite_formula_trunc (mlScore : ℚ)
    (heuristicScore threatIntelScore lookalikeScore : ℤ)
    (lookalikeDetails : Composite.LookalikeDetails)
    (hml0 : 0 ≤ mlScore) (hml1 : mlScore ≤ 1)
    (hh0 : 0 ≤ heuristicScore) (hh1 : heuristicScore ≤ 100)
    (hti0 : 0 ≤ threatIntelScore) (hti1 : threatIntelScore ≤ 100)
    (hlk0 : 0 ≤ lookalikeScore) (hlk1 : lookalikeScore ≤ 100) :
    Composite.preOverrideComposite mlScore heuristicScore threatIntelScore
      lookalikeScore lookalikeDetails =
    Composite.amendedCompositeTrunc mlScore heuristicScore threatIntelScore
      lookalikeScore lookalikeDetails := by
  by_cases hc : lookalikeDetails.is_lookalike = true ∧ lookalikeScore ≥ 90
  · have hsum : Composite.weightedSum mlScore heuristicScore threatIntelScore
        lookalikeScore lookalikeDetails =
        mlScore * 100 * 0.20 + (heuristicScore : ℚ) * 0.25 +
          (threatIntelScore : ℚ) * 0.20 + (lookalikeScore : ℚ) * 0.35 := by
      simp [Composite.weightedSum, Composite.effectiveWeights, hc]
    simp only [Composite.preOverrideComposite, Composite.amendedCompositeTrunc,
      hsum, if_pos hc]
    exact clamp_comm _
  · have hsum : Composite.weightedSum mlScore heuristicScore threatIntelScore
        lookalikeScore lookalikeDetails =
        mlScore * 100 * 0.40 + (heuristicScore : ℚ) * 0.25 +
          (threatIntelScore : ℚ) * 0.30 + (lookalikeScore : ℚ) * 0.05 := by
      simp [Composite.weightedSum, Composite.effectiveWeights, hc,
        Config.WEIGHT_ML, Config.WEIGHT_HEURISTIC, Config.WEIGHT_THREAT_INTEL,
        Config.WEIGHT_LOOKALIKE]
    simp only [Composite.preOverrideComposite, Composite.amendedCompositeTrunc,
      hsum, if_neg hc]
    exact clamp_comm _

/-- Witness for C1's amended theorem at a concrete in-range input. -/
theorem composite_formula_trunc_witness :
    ((0 : ℚ) ≤ 0 ∧ (0 : ℚ) ≤ 1 ∧ (0 : ℤ) ≤ 3 ∧ (3 : ℤ) ≤ 100) ∧
    Composite.preOverrideComposite 0 3 0 0 ⟨false, false, none, none⟩ =
      Composite.amendedCompositeTrunc 0 3 0 0 ⟨false, false, none, none⟩ :=
  ⟨⟨by decide, by decide, by decide, by decide⟩,
   composite_formula_trunc 0 3 0 0 ⟨false, false, none, none⟩ (by decide)
     (by decide) (by decide) (by decide) (by decide) (by decide) (by decide)
     (by decide)⟩

/-- Helper: the rule-evaluation fold, with a general accumulator, appends
the matched records of the fired rules in table order and adds their
weights. -/
theorem heuristic_foldl_eval (f : Heuristic.Features) (rs : List Heuristic.Rule) :
    ∀ acc : List Heuristic.MatchedRule × ℤ,
    rs.foldl
        (fun acc r =>
          if r.condition f then (acc.1 ++ [Heuristic.toMatched f r], acc.2 + r.score)
          else acc)
        acc =
      (acc.1 ++ (rs.filter (fun r => r.condition f)).map (Heuristic.toMatched f),
       acc.2 + ((rs.filter (fun r => r.condition f)).map (·.score)).sum) := by
  induction rs with
  | nil => intro acc; simp
  | cons r rs ih =>
    intro acc
    by_cases h : r.condition f
    · simp [List.foldl_cons, if_pos h, ih, List.filter_cons, h, List.append_assoc,
        add_assoc]
    · simp [List.foldl_cons, if_neg h, ih, List.filter_cons, h]

/-- Helper: the rule evaluation in closed form. -/
theorem heuristic_evalRules_eq (f : Heuristic.Features) (rs : List Heuristic.Rule) :
    Heuristic.evalRules f rs =
      ((rs.filter (fun r => r.condition f)).map (Heuristic.toMatched f),
       ((rs.filter (fun r => r.condition f)).map (·.score)).sum) := by
  have h := heuristic_foldl_eval f rs ([], 0)
  simpa [Heuristic.evalRules] using h

/-- Helper: summing a weight-if-fired map equals summing the weights of the
fired rules. -/
theorem heuristic_sum_ite (f : Heuristic.Features) (rs : List Heuristic.Rule) :
    ((rs.map (fun r => if r.condition f then r.score else 0)).sum) =
      (((rs.filter (fun r => r.condition f)).map (·.score)).sum) := by
  induction rs with
  | nil => rfl
  | cons r rs ih =>
    by_cases h : r.condition f <;>
      simp [List.filter_cons_of_pos, List.filter_cons_of_neg, h, ih]

/-- Helper: the descending-by-score comparison is transitive. -/
theorem heuristic_le_trans (a b c : Heuristic.MatchedRule)
    (h1 : decide (b.score ≤ a.score) = true)
    (h2 : decide (c.score ≤ b.score) = true) :
    decide (c.score ≤ a.score) = true := by
  simp only [decide_eq_true_eq] at h1 h2 ⊢
  omega

/-- Helper: the descending-by-score comparison is total. -/
theorem heuristic_le_total (a b : Heuristic.MatchedRule) :
    (decide (b.score ≤ a.score) || decide (a.score ≤ b.score)) = true := by
  simp only [Bool.or_eq_true, decide_eq_true_eq]
  omega

/-- C4. `HeuristicScorer.calculate_score` returns `min(total, 100)` where
the total gathers each rule's weight iff its predicate fired (zero
otherwise), and the matched-rules list is exactly the fired rules sorted by
weight descending, ties kept in rule-table insertion order (each weight
class of the output equals, in order, that class of the table-order
list). -/
theorem heuristic_score_spec (f : Heuristic.Features) :
    (Heuristic.calculateScore f).score =
      min ((Heuristic.rules.map (fun r => if r.condition f then r.score else 0)).sum)
        100 ∧
    List.Pairwise (fun a b : Heuristic.MatchedRule => b.score ≤ a.score)
      (Heuristic.calculateScore f).matched_rules ∧
    (Heuristic.calculateScore f).matched_rules.Perm
      ((Heuristic.rules.filter (fun r => r.condition f)).map (Heuristic.toMatched f)) ∧
    ∀ w : ℤ,
      (Heuristic.calculateScore f).matched_rules.filter
          (fun m => decide (m.score = w)) =
        ((Heuristic.rules.filter (fun r => r.condition f)).map
            (Heuristic.toMatched f)).filter (fun m => decide (m.score = w)) := by
  have he := heuristic_evalRules_eq f Heuristic.rules
  refine ⟨?_, ?_, ?_, ?_⟩
  · simp only [Heuristic.calculateScore, he, heuristic_sum_ite f Heuristic.rules]
  · simp only [Heuristic.calculateScore, he]
    have hs := List.sorted_mergeSort heuristic_le_trans heuristic_le_total
      ((Heuristic.rules.filter (fun r => r.condition f)).map (Heuristic.toMatched f))
    exact hs.imp (fun h => by simpa [decide_eq_true_eq] using h)
  · simp only [Heuristic.calculateScore, he]
    exact List.mergeSort_perm _ _
  · intro w
    simp only [Heuristic.calculateScore, he]
    set l := (Heuristic.rules.filter (fun r => r.condition f)).map (Heuristic.toMatched f)
      with hl
    set p := fun m : Heuristic.MatchedRule => decide (m.score = w) with hp
    have hmemp : ∀ a ∈ l.filter p, p a = true := fun a ha => (List.mem_filter.mp ha).2
    have hpair : (l.filter p).Pairwise
        (fun a b : Heuristic.MatchedRule => decide (b.score ≤ a.score) = true) := by
      refine List.pairwise_iff_forall_sublist.mpr ?_
      intro a b hab
      have ha : p a = true := hmemp a (hab.subset (List.mem_cons_self a [b]))
      have hb : p b = true :=
        hmemp b (hab.subset (List.mem_cons_of_mem a (List.mem_cons_self b [])))
      simp only [hp, decide_eq_true_eq] at ha hb ⊢
      omega
    have hsl : (l.filter p).Sublist
        (l.mergeSort (fun a b => decide (b.score ≤ a.score))) :=
      List.sublist_mergeSort heuristic_le_trans heuristic_le_total hpair
        (List.filter_sublist l)
    have h2 := hsl.filter p
    rw [List.filter_filter] at h2
    have h1 : l.filter (fun a => p a && p a) = l.filter p := by
      simp only [Bool.and_self]
    rw [h1] at h2
    have hlen : ((l.mergeSort (fun a b => decide (b.score ≤ a.score))).filter p).length =
        (l.filter p).length := by
      rw [← List.countP_eq_length_filter, ← List.countP_eq_length_filter]
      exact (List.mergeSort_perm l _).countP_eq p
    exact (h2.eq_of_length hlen.symm).symm

/-- Helper: when the querying reading `t` is at most `a + W`, eviction at
`t` removes no timestamp of the window `(a, a + W]`: everything evicted is
older than `t - W ≤ a`. -/
theorem evict_window_countP (timeWindow a t : ℚ) (s : List ℚ) (ht : t ≤ a + timeWindow) :
    (RateLimiter.evict timeWindow s t).countP
        (fun u => decide (a < u ∧ u ≤ a + timeWindow)) =
      s.countP (fun u => decide (a < u ∧ u ≤ a + timeWindow)) := by
  conv_rhs =>
    rw [← List.takeWhile_append_dropWhile (fun x => decide (x < t - timeWindow)) s]
  rw [List.countP_append]
  have h0 : (s.takeWhile (fun x => decide (x < t - timeWindow))).countP
      (fun u => decide (a < u ∧ u ≤ a + timeWindow)) = 0 := by
    rw [List.countP_eq_zero]
    intro u hu
    have hlt := List.mem_takeWhile_imp hu
    simp only [decide_eq_true_eq] at hlt ⊢
    rintro ⟨hau, -⟩
    linarith
  rw [h0, RateLimiter.evict]
  omega

/-- Helper: over nondecreasing clock readings, if `c` window successes
happened already and the recorded queue still holds at least `c` window
timestamps (or the window is already past), the total of window successes
stays within the budget `N`. -/
theorem rl_run_aux (maxCalls : ℕ) (timeWindow a : ℚ) (ts : List ℚ) :
    ∀ (s : List ℚ) (c : ℕ),
      ts.Pairwise (· ≤ ·) →
      c ≤ maxCalls →
      (c ≤ s.countP (fun u => decide (a < u ∧ u ≤ a + timeWindow)) ∨
        ∀ t ∈ ts, a + timeWindow < t) →
      c + (RateLimiter.run maxCalls timeWindow s ts).countP
          (RateLimiter.inWindow a timeWindow) ≤ maxCalls := by
  induction ts with
  | nil =>
    intro s c _ hc _
    simpa [RateLimiter.run] using hc
  | cons t ts ih =>
    intro s c hpw hc hinv
    have hpw' : ts.Pairwise (· ≤ ·) := hpw.of_cons
    have hle : ∀ u ∈ ts, t ≤ u := (List.pairwise_cons.mp hpw).1
    simp only [RateLimiter.run, RateLimiter.canCall]
    by_cases hta : t ≤ a + timeWindow
    · have hcw : c ≤ (RateLimiter.evict timeWindow s t).countP
          (fun u => decide (a < u ∧ u ≤ a + timeWindow)) := by
        rw [evict_window_countP timeWindow a t s hta]
        rcases hinv with h | h
        · exact h
        · exact absurd (h t (List.mem_cons_self t ts)) (by linarith)
      by_cases hok : (RateLimiter.evict timeWindow s t).length < maxCalls
      · have hcN : c < maxCalls :=
          lt_of_le_of_lt (hcw.trans (List.countP_le_length _)) hok
        rw [if_pos (by simpa using hok)]
        by_cases hat : a < t
        · have hhead : RateLimiter.inWindow a timeWindow (t, true) = true := by
            simp [RateLimiter.inWindow, hat, hta]
          have hnext := ih (RateLimiter.addCall (RateLimiter.evict timeWindow s t) t)
            (c + 1) hpw' (by omega)
            (Or.inl (by
              rw [RateLimiter.addCall, List.countP_append]
              have hone : List.countP
                  (fun u => decide (a < u ∧ u ≤ a + timeWindow)) [t] = 1 := by
                simp [hat, hta]
              omega))
          simp only [List.countP_cons, hhead, if_true]
          omega
        · have hhead : RateLimiter.inWindow a timeWindow (t, true) = false := by
            simp only [RateLimiter.inWindow, Bool.true_and, decide_eq_false_iff_not]
            exact fun hcon => hat hcon.1
          have hnext := ih (RateLimiter.addCall (RateLimiter.evict timeWindow s t) t)
            c hpw' hc
            (Or.inl (by
              rw [RateLimiter.addCall, List.countP_append]
              omega))
          simp [List.countP_cons, hhead]
          omega
      · rw [if_neg (by simpa using hok)]
        have hhead : RateLimiter.inWindow a timeWindow (t, false) = false := by
          simp [RateLimiter.inWindow]
        have hnext := ih (RateLimiter.evict timeWindow s t) c hpw' hc (Or.inl hcw)
        simp [List.countP_cons, hhead]
        omega
    · push_neg at hta
      have hrest : ∀ u ∈ ts, a + timeWindow < u :=
        fun u hu => lt_of_lt_of_le hta (hle u hu)
      by_cases hok : (RateLimiter.evict timeWindow s t).length < maxCalls
      · rw [if_pos (by simpa using hok)]
        have hhead : RateLimiter.inWindow a timeWindow (t, true) = false := by
          simp only [RateLimiter.inWindow, Bool.true_and, decide_eq_false_iff_not]
          exact fun hcon => absurd hcon.2 (by linarith)
        have hnext := ih (RateLimiter.addCall (RateLimiter.evict timeWindow s t) t)
          c hpw' hc (Or.inr hrest)
        simp [List.countP_cons, hhead]
        omega
      · rw [if_neg (by simpa using hok)]
        have hhead : RateLimiter.inWindow a timeWindow (t, false) = false := by
          simp [RateLimiter.inWindow]
        have hnext := ih (RateLimiter.evict timeWindow s t) c hpw' hc (Or.inr hrest)
        simp [List.countP_cons, hhead]
        omega

/-- C8. For a rate limiter with budget `N` over window `W`, running the
protocol in which every admitted `can_call()` is recorded by `add_call()`
over nondecreasing clock readings, at most `N` successful `can_call()`
results fall inside any window `(a, a + W]`; and `can_call` first evicts
the timestamps older than `now - W` and returns whether fewer than `N`
remain. -/
theorem ratelimiter_window_bound (maxCalls : ℕ) (timeWindow : ℚ) (ts : List ℚ)
    (hts : ts.Pairwise (· ≤ ·)) (a : ℚ) :
    (RateLimiter.run maxCalls timeWindow [] ts).countP
        (RateLimiter.inWindow a timeWindow) ≤ maxCalls ∧
    (∀ s now, RateLimiter.canCall maxCalls timeWindow s now =
      (decide ((RateLimiter.evict timeWindow s now).length < maxCalls),
        RateLimiter.evict timeWindow s now)) := by
  constructor
  · have h := rl_run_aux maxCalls timeWindow a ts [] 0 hts (Nat.zero_le maxCalls)
      (Or.inl (Nat.zero_le _))
    simpa using h
  · intro s now
    rfl

/-- Witness for C8 on a concrete run: budget 2, window 10, four calls at
readings 0, 1, 2, 3. -/
theorem ratelimiter_window_bound_witness :
    List.Pairwise (· ≤ ·) ([0, 1, 2, 3] : List ℚ) ∧
    (RateLimiter.run 2 10 [] [0, 1, 2, 3]).countP (RateLimiter.inWindow 0 10) ≤ 2 :=
  ⟨by decide, (ratelimiter_window_bound 2 10 [0, 1, 2, 3] (by decide) 0).1⟩

/-- Helper: the edit distance of a string to itself is 0. -/
theorem levDistance_self (s : List Char) : Lookalike.levDistance s s = 0 := by
  induction s with
  | nil => simp [Lookalike.levDistance]
  | cons a s ih => simp [Lookalike.levDistance, ih]

/-- Helper: edit distance 0 forces equality. -/
theorem levDistance_eq_zero (s : List Char) :
    ∀ t : List Char, Lookalike.levDistance s t = 0 → s = t := by
  induction s with
  | nil =>
    intro t h
    rw [levDistance_nil_left] at h
    exact (List.length_eq_zero.mp h).symm
  | cons a s ih =>
    intro t h
    cases t with
    | nil => simp [Lookalike.levDistance] at h
    | cons b t =>
      simp only [Lookalike.levDistance, Nat.min_eq_zero_iff] at h
      rcases h with (h | h) | h
      · have hc : (if a = b then 0 else 1) = 0 ∧ Lookalike.levDistance s t = 0 := by
          constructor <;> omega
        have hab : a = b := by
          by_contra hne
          simp [hne] at hc
        exact hab ▸ congrArg (a :: ·) (ih t hc.2)
      · omega
      · omega

/-- Helper: the similarity ratio never exceeds 1. -/
theorem levSimilarity_le_one (s t : List Char) : Lookalike.levSimilarity s t ≤ 1 := by
  rw [Lookalike.levSimilarity]
  by_cases h : max s.length t.length = 0
  · simp [h]
  · simp only [h, if_false]
    rw [div_le_one (by positivity)]
    have : (0 : ℚ) ≤ (Lookalike.levDistance s t : ℚ) := by positivity
    linarith

/-- Helper: similarity 1 forces equality. -/
theorem levSimilarity_eq_one (s t : List Char)
    (h : Lookalike.levSimilarity s t = 1) : s = t := by
  rw [Lookalike.levSimilarity] at h
  by_cases hm : max s.length t.length = 0
  · have hs : s.length = 0 := by omega
    have ht : t.length = 0 := by omega
    rw [List.length_eq_zero.mp hs, List.length_eq_zero.mp ht]
  · simp only [hm, if_false] at h
    have hm' : ((max s.length t.length : ℕ) : ℚ) ≠ 0 := by
      exact_mod_cast hm
    rw [div_eq_one_iff_eq hm'] at h
    have : (Lookalike.levDistance s t : ℚ) = 0 := by linarith
    exact levDistance_eq_zero s t (by exact_mod_cast this)

/-- Helper: the similarity of a string with itself is 1. -/
theorem levSimilarity_self (s : List Char) : Lookalike.levSimilarity s s = 1 := by
  by_cases h : max s.length s.length = 0
  · have hs : s = [] := List.length_eq_zero.mp (by omega)
    subst hs
    norm_num [Lookalike.levSimilarity]
  · simp only [Lookalike.levSimilarity, levDistance_self, Nat.cast_zero, sub_zero,
      h, if_false]
    exact div_self (by exact_mod_cast h)

/-- Helper: the per-brand similarity never exceeds 1. -/
theorem simOf_le_one (d bd : List Char) : Lookalike.simOf d bd ≤ 1 := by
  rw [Lookalike.simOf]
  split_ifs with h
  · norm_num
  · exact levSimilarity_le_one d bd

/-- Helper: per-brand similarity 1 forces the label to equal the domain. -/
theorem simOf_eq_one (d bd : List Char) (h : Lookalike.simOf d bd = 1) : bd = d := by
  rw [Lookalike.simOf] at h
  split_ifs at h with hc
  · norm_num at h
  · exact (levSimilarity_eq_one d bd h).symm

/-- Helper: a brand label equal to the domain scores similarity exactly 1. -/
theorem simOf_of_eq (d bd : List Char) (h : bd = d) : Lookalike.simOf d bd = 1 := by
  rw [Lookalike.simOf, if_neg (by simp [h]), h]
  exact levSimilarity_self d

/-- Helper: invariants of the best-match fold. The best similarity stays at
most 1, similarity exactly 1 certifies a matched brand whose label is the
candidate, and once some listed brand label equals the candidate (or the
state is already at 1) the final best similarity is 1. -/
theorem lookalike_fold_invariant (d : List Char) (bs : List (String × String)) :
    ∀ st : Lookalike.BestState,
      st.sim ≤ 1 →
      (st.sim = 1 → ∃ cb, st.brand = some cb ∧ Lookalike.brandLabel cb.2 = d) →
      ((bs.foldl (Lookalike.bestStep d) st).sim ≤ 1 ∧
       ((bs.foldl (Lookalike.bestStep d) st).sim = 1 →
         ∃ cb, (bs.foldl (Lookalike.bestStep d) st).brand = some cb ∧
           Lookalike.brandLabel cb.2 = d) ∧
       (((∃ cb ∈ bs, Lookalike.brandLabel cb.2 = d) ∨ st.sim = 1) →
         (bs.foldl (Lookalike.bestStep d) st).sim = 1)) := by
  induction bs with
  | nil =>
    intro st h1 h2
    refine ⟨h1, h2, ?_⟩
    rintro (⟨cb, hcb, -⟩ | h)
    · exact absurd hcb (List.not_mem_nil cb)
    · exact h
  | cons cb bs ih =>
    intro st h1 h2
    rw [List.foldl_cons]
    have hst'1 : (Lookalike.bestStep d st cb).sim ≤ 1 := by
      rw [Lookalike.bestStep]
      split_ifs with h
      · exact simOf_le_one d (Lookalike.brandLabel cb.2)
      · exact h1
    have hst'2 : (Lookalike.bestStep d st cb).sim = 1 →
        ∃ cb', (Lookalike.bestStep d st cb).brand = some cb' ∧
          Lookalike.brandLabel cb'.2 = d := by
      rw [Lookalike.bestStep]
      split_ifs with h
      · intro hs
        exact ⟨cb, rfl, simOf_eq_one d (Lookalike.brandLabel cb.2) hs⟩
      · exact h2
    have hmono : st.sim = 1 → (Lookalike.bestStep d st cb).sim = 1 := by
      rw [Lookalike.bestStep]
      split_ifs with h
      · intro hs
        have := simOf_le_one d (Lookalike.brandLabel cb.2)
        rw [hs] at h
        linarith
      · exact id
    have hhit : Lookalike.brandLabel cb.2 = d →
        (Lookalike.bestStep d st cb).sim = 1 := by
      intro hd
      have hone := simOf_of_eq d (Lookalike.brandLabel cb.2) hd
      rw [Lookalike.bestStep]
      split_ifs with h
      · exact hone
      · rw [hone] at h
        linarith
    obtain ⟨g1, g2, g3⟩ := ih (Lookalike.bestStep d st cb) hst'1 hst'2
    refine ⟨g1, g2, ?_⟩
    rintro (⟨cb', hcb', hd⟩ | hs)
    · rcases List.mem_cons.mp hcb' with rfl | hmem
      · exact g3 (Or.inr (hhit hd))
      · exact g3 (Or.inl ⟨cb', hmem, hd⟩)
    · exact g3 (Or.inr (hmono hs))

/-- Helper: the character-substitution scan over identical strings never
fires. -/
theorem homoglyphScan_self (d : List Char) :
    ∀ i : ℕ, Lookalike.homoglyphScan (d.zip d) i = none := by
  induction d with
  | nil => intro i; rfl
  | cons c d ih =>
    intro i
    simp only [List.zip_cons_cons, Lookalike.homoglyphScan, ne_eq,
      not_true_eq_false, false_and, if_false]
    exact ih (i + 1)

set_option maxRecDepth 8000 in
/-- Helper: every brand label of the index uses at most one script. -/
theorem brand_labels_single_script :
    ∀ cb ∈ Lookalike.allBrands,
      Lookalike.scriptCount (Lookalike.scriptsOf (Lookalike.brandLabel cb.2)) ≤ 1 := by
  decide

/-- C6. A URL whose registrable-domain label equals, case-insensitively, a
brand label of the index is not reported as a lookalike: the verdict is
negative and no homoglyph or mixed-script flag fires for that domain. -/
theorem lookalike_exact_brand_not_flagged (domain : String) (cb : String × String)
    (hmem : cb ∈ Lookalike.allBrands)
    (heq : domain.data.map Char.toLower = Lookalike.brandLabel cb.2) :
    (Lookalike.detectLookalike domain).is_lookalike = false ∧
    (Lookalike.detectLookalike domain).homoglyph_detected = false := by
  simp only [Lookalike.detectLookalike]
  set d := domain.data.map Char.toLower with hd
  obtain ⟨g1, g2, g3⟩ := lookalike_fold_invariant d Lookalike.allBrands
    Lookalike.initBest (by norm_num [Lookalike.initBest])
    (by intro h; norm_num [Lookalike.initBest] at h)
  have hsim1 : (Lookalike.allBrands.foldl (Lookalike.bestStep d)
      Lookalike.initBest).sim = 1 := g3 (Or.inl ⟨cb, hmem, heq.symm⟩)
  obtain ⟨cb', hbrand, hlab⟩ := g2 hsim1
  have hsc : Lookalike.scriptCount (Lookalike.scriptsOf d) ≤ 1 := by
    rw [heq]
    exact brand_labels_single_script cb hmem
  have hhg : Lookalike.checkHomoglyphs d (some cb'.2) = (false, none) := by
    simp only [Lookalike.checkHomoglyphs, hlab, homoglyphScan_self]
    simp [show ¬(Lookalike.scriptCount (Lookalike.scriptsOf d) > 1) by omega]
  rw [hbrand]
  simp only [Option.map_some', Option.getD_some, hlab, hhg]
  simp

set_option maxRecDepth 8000 in
/-- Witness for C6: the candidate label PayPal (case-insensitively equal to
the paypal.com brand label) is not flagged. -/
theorem lookalike_exact_brand_not_flagged_witness :
    (("financial", "paypal.com") ∈ Lookalike.allBrands) ∧
    ("PayPal".data.map Char.toLower = Lookalike.brandLabel "paypal.com") ∧
    ((Lookalike.detectLookalike "PayPal").is_lookalike = false ∧
     (Lookalike.detectLookalike "PayPal").homoglyph_detected = false) :=
  ⟨by decide, by decide,
   lookalike_exact_brand_not_flagged "PayPal" ("financial", "paypal.com")
     (by decide) (by decide)⟩
